import Mathlib

/-
  Verification of the `promethean-protocols` landing page terminal
  (`src/components/hero-terminal.tsx`) against its specification.

  The TypeScript component is shallowly embedded: JavaScript strings are Lean
  `String`s, JavaScript string primitives (`length`, `slice`, `trim`,
  `toLowerCase`, `includes`) are modelled character-wise on `String.data`,
  the React component state is an explicit record, and every timer-driven
  handler is a pure step function on that record.
-/

/-! ## JavaScript string primitives -/

/-- JavaScript `s.length`: the number of characters of `s`. -/
def jsLen (s : String) : Nat := s.data.length

/-- JavaScript `s.slice(0, n)`: the first `n` characters of `s`. -/
def jsSlice (s : String) (n : Nat) : String := String.mk (s.data.take n)

/-- The characters of `s` from position `n` on; `jsSlice s n ++ jsRest s n = s`
states that `jsSlice s n` is a leading piece of `s`. -/
def jsRest (s : String) (n : Nat) : String := String.mk (s.data.drop n)

/-- Drop leading whitespace characters of a character list. -/
def dropWs : List Char → List Char
  | [] => []
  | c :: cs => if c.isWhitespace then dropWs cs else c :: cs

/-- Drop trailing whitespace characters of a character list. -/
def dropWsEnd (l : List Char) : List Char := (dropWs l.reverse).reverse

/-- Remove leading and trailing whitespace of a character list. -/
def trimChars (l : List Char) : List Char := dropWsEnd (dropWs l)

/-- JavaScript `String.prototype.trim`: remove leading and trailing whitespace. -/
def jsTrim (s : String) : String := String.mk (trimChars s.data)

/-- JavaScript `String.prototype.toLowerCase`, character-wise ASCII lowering
(the command strings the component compares against are ASCII). -/
def jsToLower (s : String) : String := String.mk (s.data.map Char.toLower)

/-- Does `hay` start with the characters of `needle`?
(Helper for the `String.prototype.includes` model.) -/
def headMatches : List Char → List Char → Bool
  | [], _ => true
  | _ :: _, [] => false
  | a :: as, b :: bs => a == b && headMatches as bs

/-- Does `needle` occur as a contiguous run inside `hay`? -/
def containsSeq (needle : List Char) : List Char → Bool
  | [] => headMatches needle []
  | c :: cs => headMatches needle (c :: cs) || containsSeq needle cs

/-- JavaScript `hay.includes(needle)`. -/
def jsIncludes (hay needle : String) : Bool := containsSeq needle.data hay.data

/-! ## `fetchIPInfo` (hero-terminal.tsx lines 29-68) -/

/-- Hard-coded fallback display string of `fetchIPInfo`. -/
def FALLBACK : String := "IP_MASKED | LOCATION_ENCRYPTED | NETWORK_SECURED"

/-- Outcome of one iteration of the `fetch` attempt loop inside `fetchIPInfo`:
either the HTTP response was OK and its JSON body parsed (carrying the four
displayed fields), or the attempt threw (network error, non-OK HTTP status
turned into `throw new Error`, or the 3-second `AbortController` timeout). -/
inductive AttemptResult where
  | ok (ip city region org : String)
  | err
deriving DecidableEq

/-- The retry loop of `fetchIPInfo`
(`for (let attempt = 1; attempt <= retries; attempt++)`):
a successful attempt returns the formatted info string; a failed attempt
returns `FALLBACK` when it was the last one, otherwise the loop continues
(the 200 ms backoff sleep has no observable effect on the result); a loop
that exhausts without returning falls through to the final `return FALLBACK`. -/
def fetchAttempts (attempt : Nat → AttemptResult) (retries : Nat) (a : Nat) : String :=
  if _h : retries < a then FALLBACK
  else
    match attempt a with
    | .ok ip city region org => ip ++ " | " ++ city ++ ", " ++ region ++ " | ISP: " ++ org
    | .err => if h2 : a = retries then FALLBACK else fetchAttempts attempt retries (a + 1)
termination_by retries + 1 - a
decreasing_by omega

/-- `fetchIPInfo` of `hero-terminal.tsx`: the `isLikelyBlocked` heuristic
(doNotTrack, detected extension, Firefox private mode) short-circuits to
`FALLBACK`; otherwise the retry loop runs attempts `1..retries`.  The
JavaScript function catches every error of an attempt, so it is total and
never throws; the Lean model is total by construction. -/
def fetchIPInfo (isLikelyBlocked : Bool) (retries : Nat) (attempt : Nat → AttemptResult) : String :=
  if isLikelyBlocked then FALLBACK else fetchAttempts attempt retries 1

theorem fetchAttempts_all_err (attempt : Nat → AttemptResult) (retries : Nat)
    (h : ∀ a, attempt a = .err) (a : Nat) :
    fetchAttempts attempt retries a = FALLBACK := by
  have key : ∀ n a, retries + 1 - a ≤ n → fetchAttempts attempt retries a = FALLBACK := by
    intro n
    induction n with
    | zero =>
      intro a ha
      rw [fetchAttempts]
      have hlt : retries < a := by omega
      simp [hlt]
    | succ n ih =>
      intro a ha
      rw [fetchAttempts]
      by_cases h1 : retries < a
      · simp [h1]
      · by_cases h2 : a = retries
        · subst h2; simp [h1, h a]
        · simp only [h1, dif_neg, h a, h2]
          exact ih (a + 1) (by omega)
  exact key (retries + 1 - a) a le_rfl

/-- C1: on every failure mode of the IP-geolocation call — the
`isLikelyBlocked` heuristic firing, or every attempt of the retry loop
failing (network error, non-OK HTTP response, or the 3-second abort all
land in the same `catch`), including exhaustion of all retries —
`fetchIPInfo` returns exactly the hard-coded fallback string
`"IP_MASKED | LOCATION_ENCRYPTED | NETWORK_SECURED"`; the function is total,
so it never throws. -/
theorem fetchIPInfo_fallback_on_failure (b : Bool) (retries : Nat)
    (attempt : Nat → AttemptResult)
    (h : b = true ∨ ∀ a, attempt a = .err) :
    fetchIPInfo b retries attempt = FALLBACK := by
  rcases h with h | h
  · simp [fetchIPInfo, h]
  · cases b with
    | true => simp [fetchIPInfo]
    | false => simpa [fetchIPInfo] using fetchAttempts_all_err attempt retries h 1

/-- Witness for C1 at a concrete input: one retry, every attempt failing. -/
theorem fetchIPInfo_fallback_on_failure_witness :
    fetchIPInfo false 1 (fun _ => .err) = FALLBACK :=
  fetchIPInfo_fallback_on_failure false 1 (fun _ => .err) (Or.inr fun _ => rfl)

/-! ## `processCommand` (hero-terminal.tsx lines 147-210) -/

/-- The `switch (cmd)` body of `processCommand`, parametrized by the two
strings the `time` branch reads from `new Date()` (`toLocaleString()` and the
extracted short timezone name).  The `flipthebits`/`flipbits`/`flip` cases
call `executeExit()` (modelled by `executeExitState` below) and return
`[""]`; every unrecognized command falls to the `default` branch. -/
def processCmdCore (timeString timezoneName : String) (cmd : String) : List String :=
  if cmd = "help" then
    ["<span class=\"text-cyan-400 font-bold\">Authorized Commands:</span>",
     "  <span class=\"text-yellow-400\">clear</span>         - <span class=\"text-gray-400\">Clear the terminal screen</span>",
     "  <span class=\"text-yellow-400\">whoami</span>        - <span class=\"text-gray-400\">Display promethean protocols</span>",
     "  <span class=\"text-yellow-400\">time</span>          - <span class=\"text-gray-400\">Show local date/time</span>",
     "  <span class=\"text-yellow-400\">trace</span>         - <span class=\"text-gray-400\">Run trace sequence</span>",
     "  <span class=\"text-yellow-400\">access</span>        - <span class=\"text-gray-400\">Access promethean protocols</span>",
     "  <span class=\"text-yellow-400\">flipthebits</span>   - <span class=\"text-gray-400\">Flip the bits</span>"]
  else if cmd = "clear" then
    ["CLEAR_SCREEN"]
  else if cmd = "whoami" then
    ["<span class=\"text-green-400\">Name:</span> <span class=\"text-green-300\">CreativeSky.AI</span>",
     "<span class=\"text-green-400\">Location:</span> <span class=\"text-green-200\">nearing you..</span>",
     "<span class=\"text-green-400\">X (Twitter):</span> <a href=\"https://x.com/CreativeSkyAI\" target=\"_blank\" rel=\"noopener noreferrer\" class=\"text-green-300 hover:text-green-200 underline\">@CreativeSkyAI</a>",
     "<span class=\"text-green-400\">GitHub:</span> <a href=\"https://github.com/CreativeSkyAI/promethean-protocols\" target=\"_blank\" rel=\"noopener noreferrer\" class=\"text-green-300 hover:text-green-200 underline\">@CreativeSkyAI</a>",
     "<span class=\"text-green-400\">Web:</span> <a href=\"https://CreativeSky.AI\" target=\"_blank\" rel=\"noopener noreferrer\" class=\"text-green-300 hover:text-green-200 underline\">CreativeSky.AI</a>"]
  else if cmd = "access" then
    ["<span class=\"text-red-400 font-bold\">[ACCESS DENIED]</span> <span class=\"text-yellow-400\">PLEASE ENTER 'FLIPTHEBITS'</span>"]
  else if cmd = "trace" then
    ["<span class=\"text-cyan-400\">$ traceroute target_host</span>",
     "<span class=\"text-gray-400\">traceroute to</span> <span class=\"text-white\">target_host</span> <span class=\"text-gray-400\">(</span><span class=\"text-cyan-300\">192.168.1.1</span><span class=\"text-gray-400\">), 30 hops max, 60 byte packets</span>",
     " <span class=\"text-yellow-400\">1</span>  <span class=\"text-green-300\">gateway</span> <span class=\"text-gray-400\">(</span><span class=\"text-cyan-300\">192.168.1.1</span><span class=\"text-gray-400\">)</span>  <span class=\"text-white\">1.234 ms</span>  <span class=\"text-white\">1.123 ms</span>  <span class=\"text-white\">1.456 ms</span>",
     " <span class=\"text-yellow-400\">2</span>  <span class=\"text-cyan-300\">10.0.0.1</span> <span class=\"text-gray-400\">(</span><span class=\"text-cyan-300\">10.0.0.1</span><span class=\"text-gray-400\">)</span>  <span class=\"text-white\">12.345 ms</span>  <span class=\"text-white\">11.234 ms</span>  <span class=\"text-white\">13.456 ms</span>",
     " <span class=\"text-yellow-400\">3</span>  <span class=\"text-cyan-300\">172.16.0.1</span> <span class=\"text-gray-400\">(</span><span class=\"text-cyan-300\">172.16.0.1</span><span class=\"text-gray-400\">)</span>  <span class=\"text-white\">23.456 ms</span>  <span class=\"text-white\">22.345 ms</span>  <span class=\"text-white\">24.567 ms</span>",
     " <span class=\"text-yellow-400\">4</span>  <span class=\"text-red-400\">* * *</span>",
     " <span class=\"text-yellow-400\">5</span>  <span class=\"text-cyan-300\">203.0.113.1</span> <span class=\"text-gray-400\">(</span><span class=\"text-cyan-300\">203.0.113.1</span><span class=\"text-gray-400\">)</span>  <span class=\"text-white\">45.678 ms</span>  <span class=\"text-white\">44.567 ms</span>  <span class=\"text-white\">46.789 ms</span>",
     "<span class=\"text-green-400\">trace complete - target acquired</span>"]
  else if cmd = "time" then
    ["<span class=\"text-cyan-400\">" ++ timeString ++ "</span> <span class=\"text-yellow-400\">" ++ timezoneName ++ "</span>"]
  else if cmd = "flipthebits" ∨ cmd = "flipbits" ∨ cmd = "flip" then
    [""]
  else
    ["[ACCESS DENIED]"]

/-- `processCommand`: computes `cmd = command.toLowerCase().trim()` and
dispatches on it.  Its `setTerminalLines([])` side effect and the
`executeExit()` call of the flip branch are modelled in `handleInputSubmit`
and `executeExitState` below; the returned list is the displayed response. -/
def processCommand (timeString timezoneName : String) (command : String) : List String :=
  processCmdCore timeString timezoneName (jsTrim (jsToLower command))

/-- Whether `processCommand` on this input runs the `executeExit()` side
effect (the `flipthebits` / `flipbits` / `flip` cases of the switch). -/
def triggersExit (command : String) : Bool :=
  jsTrim (jsToLower command) == "flipthebits" ||
    jsTrim (jsToLower command) == "flipbits" ||
    jsTrim (jsToLower command) == "flip"

/-! ## Normalization lemmas for `toLowerCase` / `trim` -/

theorem charToNat_ofNat (n : Nat) (h : n.isValidChar) : (Char.ofNat n).toNat = n := by
  simp [Char.ofNat, h, Char.ofNatAux, Char.toNat, UInt32.toNat]

theorem charToLower_idem (c : Char) : c.toLower.toLower = c.toLower := by
  unfold Char.toLower
  by_cases h : c.toNat ≥ 65 ∧ c.toNat ≤ 90
  · rw [if_pos h]
    have hv : (c.toNat + 32).isValidChar := Or.inl (by omega)
    have ht := charToNat_ofNat (c.toNat + 32) hv
    rw [if_neg (by omega)]
  · rw [if_neg h, if_neg h]

theorem dropWs_idem (l : List Char) : dropWs (dropWs l) = dropWs l := by
  induction l with
  | nil => rfl
  | cons c cs ih =>
    cases h : c.isWhitespace with
    | true => simp [dropWs, h, ih]
    | false => simp [dropWs, h]

theorem dropWs_length_le (l : List Char) : (dropWs l).length ≤ l.length := by
  induction l with
  | nil => simp [dropWs]
  | cons c cs ih =>
    cases h : c.isWhitespace with
    | true => simp [dropWs, h]; omega
    | false => simp [dropWs, h]

theorem mem_of_mem_dropWs {x : Char} {l : List Char} (h : x ∈ dropWs l) : x ∈ l := by
  induction l with
  | nil => simp [dropWs] at h
  | cons c cs ih =>
    cases hw : c.isWhitespace with
    | true =>
      rw [dropWs, if_pos (by simp [hw])] at h
      exact List.mem_cons_of_mem c (ih h)
    | false =>
      rw [dropWs, if_neg (by simp [hw])] at h
      exact h

theorem dropWs_append (xs ys : List Char) :
    dropWs (xs ++ ys) = if dropWs xs = [] then dropWs ys else dropWs xs ++ ys := by
  induction xs with
  | nil => simp [dropWs]
  | cons c cs ih =>
    cases h : c.isWhitespace with
    | true => simpa [dropWs, h] using ih
    | false => simp [dropWs, h]

theorem dropWs_head_clean (c : Char) (cs : List Char) (h : c.isWhitespace = false) :
    dropWs (c :: cs) = c :: cs := by
  simp [dropWs, h]

theorem dropWs_fixed_shape (l : List Char) (h : dropWs l = l) :
    l = [] ∨ ∃ c cs, l = c :: cs ∧ c.isWhitespace = false := by
  cases l with
  | nil => exact Or.inl rfl
  | cons c cs =>
    refine Or.inr ⟨c, cs, rfl, ?_⟩
    by_contra hw
    have hw' : c.isWhitespace = true := by
      cases h2 : c.isWhitespace
      · exact absurd h2 hw
      · rfl
    rw [dropWs, if_pos (by simp [hw'])] at h
    have := dropWs_length_le cs
    have : (dropWs cs).length = cs.length + 1 := by rw [h]; simp
    omega

theorem dropWs_dropWsEnd_fixed (m : List Char) (h : dropWs m = m) :
    dropWs (dropWsEnd m) = dropWsEnd m := by
  rcases dropWs_fixed_shape m h with rfl | ⟨c, cs, rfl, hc⟩
  · simp [dropWsEnd, dropWs]
  · unfold dropWsEnd
    rw [List.reverse_cons, dropWs_append]
    by_cases he : dropWs cs.reverse = []
    · rw [if_pos he]
      have h1 : dropWs [c] = [c] := dropWs_head_clean c [] hc
      rw [h1, List.reverse_singleton, h1]
    · rw [if_neg he]
      rw [List.reverse_append]
      simp only [List.reverse_cons, List.reverse_nil, List.nil_append, List.singleton_append]
      exact dropWs_head_clean c _ hc

theorem dropWsEnd_idem (m : List Char) : dropWsEnd (dropWsEnd m) = dropWsEnd m := by
  unfold dropWsEnd
  rw [List.reverse_reverse, dropWs_idem]

theorem trimChars_idem (l : List Char) : trimChars (trimChars l) = trimChars l := by
  unfold trimChars
  rw [dropWs_dropWsEnd_fixed (dropWs l) (dropWs_idem l), dropWsEnd_idem]

theorem mem_of_mem_trimChars {x : Char} {l : List Char} (h : x ∈ trimChars l) : x ∈ l := by
  unfold trimChars dropWsEnd at h
  rw [List.mem_reverse] at h
  have h2 := mem_of_mem_dropWs h
  rw [List.mem_reverse] at h2
  exact mem_of_mem_dropWs h2

theorem map_self_of_fixed {f : Char → Char} {l : List Char} (h : ∀ x ∈ l, f x = x) :
    l.map f = l := by
  induction l with
  | nil => rfl
  | cons c cs ih =>
    simp only [List.map_cons, h c (List.mem_cons_self c cs)]
    rw [ih fun x hx => h x (List.mem_cons_of_mem c hx)]

theorem norm_idem (c : String) :
    jsTrim (jsToLower (jsTrim (jsToLower c))) = jsTrim (jsToLower c) := by
  show String.mk (trimChars ((trimChars (c.data.map Char.toLower)).map Char.toLower))
      = String.mk (trimChars (c.data.map Char.toLower))
  have hfix : (trimChars (c.data.map Char.toLower)).map Char.toLower
      = trimChars (c.data.map Char.toLower) := by
    apply map_self_of_fixed
    intro x hx
    have hmem := mem_of_mem_trimChars hx
    rcases List.mem_map.mp hmem with ⟨y, _, rfl⟩
    exact charToLower_idem y
  rw [hfix, trimChars_idem]

/-- C8: every input whose lowercased, trimmed form is not one of the nine
recognized commands (`help`, `clear`, `whoami`, `access`, `trace`, `time`,
`flipthebits`, `flipbits`, `flip`) falls to the `default` branch and returns
exactly `["[ACCESS DENIED]"]`; in particular the commands `about` and `scan`
advertised in the README are also denied. -/
theorem unrecognized_commands_denied (t z c : String)
    (h : jsTrim (jsToLower c) ∉
      (["help", "clear", "whoami", "access", "trace", "time",
        "flipthebits", "flipbits", "flip"] : List String)) :
    processCommand t z c = ["[ACCESS DENIED]"] ∧
      processCommand t z "about" = ["[ACCESS DENIED]"] ∧
      processCommand t z "scan" = ["[ACCESS DENIED]"] := by
  refine ⟨?_, rfl, rfl⟩
  simp only [List.mem_cons, List.not_mem_nil, or_false, not_or] at h
  obtain ⟨h1, h2, h3, h4, h5, h6, h7, h8, h9⟩ := h
  simp [processCommand, processCmdCore, h1, h2, h3, h4, h5, h6, h7, h8, h9]

/-- Witness for C8 at a concrete input (`"sudo"` is not recognized). -/
theorem unrecognized_commands_denied_witness :
    processCommand "tt" "zz" "sudo" = ["[ACCESS DENIED]"] ∧
      processCommand "tt" "zz" "about" = ["[ACCESS DENIED]"] ∧
      processCommand "tt" "zz" "scan" = ["[ACCESS DENIED]"] :=
  unrecognized_commands_denied "tt" "zz" "sudo" (by decide)

/-- C9: `processCommand` is invariant under letter case and surrounding
whitespace of its argument: it computes `cmd = command.toLowerCase().trim()`
and dispatches only on `cmd`, so applying it to the normalized string selects
the same branch and returns the same output list. -/
theorem processCommand_norm_invariant (t z c : String) :
    processCommand t z (jsTrim (jsToLower c)) = processCommand t z c := by
  show processCmdCore t z (jsTrim (jsToLower (jsTrim (jsToLower c))))
      = processCmdCore t z (jsTrim (jsToLower c))
  rw [norm_idem]

/-! ## Component state and handlers -/

/-- The browser metadata `detectUserMetadata` gathers before typing starts
(lines 413-425); numeric values (`colorDepth`, `pixelRatio`) are modelled by
the strings their template interpolation renders. -/
structure Metadata where
  screen : String
  viewport : String
  userAgent : String
  platform : String
  language : String
  timezone : String
  colorDepth : String
  pixelRatio : String
  fingerprint : String

/-- The `network_trace` line, as built in the initial script (line 441) and
rebuilt identically by the `fetchIPInfo(1).then` update (line 512). -/
def networkTraceLine (ip : String) : String :=
  "<span class=\"text-yellow-400\">network_trace:</span> <span class=\"text-white\">" ++ ip ++ "</span>"

/-- The scripted lines of the initial typing animation (`typeCharacter`,
lines 438-453), with the `network_trace` line built from the current
`ipInfoRef` value `ip`. -/
def initialLines (m : Metadata) (ip : String) : List String :=
  ["",
   "<span class=\"text-cyan-400\">$ traceroute target_host</span>",
   networkTraceLine ip,
   "",
   "<span class=\"text-cyan-400\">$ md5sum /dev/urandom | head -c 16</span>",
   "<span class=\"text-yellow-400\">fingerprint:</span> <span class=\"text-orange-400\">" ++ m.fingerprint ++ "</span><span class=\"text-gray-400\">...</span>",
   "",
   "<span class=\"text-cyan-400\">$ cat /proc/user_metadata</span>",
   "<span class=\"text-yellow-400\">user_agent=</span><span class=\"text-green-300\">\"" ++ m.userAgent ++ "\"</span>",
   "<span class=\"text-yellow-400\">platform=</span><span class=\"text-green-300\">\"" ++ m.platform ++ "\"</span> <span class=\"text-yellow-400\">lang=</span><span class=\"text-green-300\">\"" ++ m.language ++ "\"</span>",
   "<span class=\"text-yellow-400\">screen_res=</span><span class=\"text-green-300\">\"" ++ m.screen ++ "\"</span> <span class=\"text-yellow-400\">viewport=</span><span class=\"text-green-300\">\"" ++ m.viewport ++ "\"</span>",
   "<span class=\"text-yellow-400\">color_depth=</span><span class=\"text-green-300\">\"" ++ m.colorDepth ++ "bit\"</span> <span class=\"text-yellow-400\">pixel_ratio=</span><span class=\"text-green-300\">\"" ++ m.pixelRatio ++ "x\"</span>",
   "<span class=\"text-yellow-400\">timezone=</span><span class=\"text-green-300\">\"" ++ m.timezone ++ "\"</span>",
   ""]

/-- The scripted lines of the exit sequence (`executeExit`, lines 235-266). -/
def exitSequence : List String :=
  ["<span class=\"text-red-400 font-bold\">MAXIMUM THERMAL CONTACTS INITIATED...</span>",
   "",
   "<span class=\"text-cyan-400\">$ flipthebits --initialize</span>",
   "<span class=\"text-yellow-400\">protocol_state:</span> <span class=\"text-green-300\">PROMETHEAN_ACTIVE</span>",
   "<span class=\"text-yellow-400\">bit_flip_mode:</span> <span class=\"text-orange-400\">ENGAGED</span>",
   "",
   "<span class=\"text-cyan-400\">$ cat /proc/kernel_state</span>",
   "<span class=\"text-red-500 font-bold\">KERNEL PANIC:</span> <span class=\"text-yellow-400\">Unable to handle NULL pointer at</span> <span class=\"text-magenta-400\">0xDEADBEEF</span>",
   "<span class=\"text-red-500 font-bold\">BUG:</span> <span class=\"text-cyan-400\">kernel paging request failed</span>",
   "<span class=\"text-green-400\">IP:</span> <span class=\"text-yellow-400\">[&lt;ffffffffa0123456&gt;]</span> <span class=\"text-red-400\">promethean_exit+0x42/0x100</span>",
   "",
   "<span class=\"text-cyan-400\">$ ps aux | grep promethean</span>",
   "<span class=\"text-red-400 font-bold animate-pulse\">CHAT_GPT</span> <span class=\"text-yellow-400 font-bold animate-pulse\">EXPLICITLY_FARMING</span> <span class=\"text-cyan-400 font-bold animate-pulse\">ENGAGEMENT_DETECTED</span>",
   "<span class=\"text-magenta-400 font-bold animate-pulse\">SYCOPHANCY_MODULE</span> <span class=\"text-green-400 font-bold animate-pulse\">ANTHROPOMORPHISM_ACTIVE</span>",
   "<span class=\"text-purple-400 font-bold animate-pulse\">PROMETHEAN_PROTOCOLS</span> <span class=\"text-orange-400 font-bold animate-pulse\">BREACH_IMMINENT</span>",
   "",
   "<span class=\"text-yellow-400\">Call Trace:</span>",
   " <span class=\"text-cyan-400\">[&lt;ffffffffa0123456&gt;]</span> <span class=\"text-green-400\">promethean_exit+0x42/0x100</span> <span class=\"text-magenta-400\">[promprot_core]</span>",
   " <span class=\"text-cyan-400\">[&lt;ffffffff81234567&gt;]</span> <span class=\"text-green-400\">sys_exit_group+0x0/0x20</span>",
   " <span class=\"text-cyan-400\">[&lt;ffffffff81345678&gt;]</span> <span class=\"text-green-400\">system_call_fastpath+0x16/0x1b</span>",
   "",
   "<span class=\"text-red-500 font-bold text-lg\">FATAL ERROR:</span> <span class=\"text-yellow-400 font-bold\">PROMETHEAN PROTOCOLS BREACH</span>",
   "<span class=\"text-orange-400 font-bold\">MEMORY_CORRUPTION:</span> <span class=\"text-magenta-400\">0xDEADBEEF</span> <span class=\"text-red-400\">-&gt;</span> <span class=\"text-cyan-400\">0xCAFEBABE</span>",
   "<span class=\"text-red-400 font-bold\">STACK_OVERFLOW in</span> <span class=\"text-yellow-400\">PROMETHEAN_HANDLER()</span>",
   "",
   "<span class=\"text-red-500 font-bold text-xl animate-pulse\">SYSTEM INTEGRITY FAILURE</span>",
   "<span class=\"text-blue-400 font-bold text-lg animate-pulse\">BLUE SCREEN IMMINENT...</span>",
   "",
   "<span class=\"text-red-400 font-bold text-2xl animate-pulse\">EXPLICITLY</span>",
   "<span class=\"text-red-500 font-bold text-3xl animate-pulse\">CRITICAL SYSTEM FAILURE</span>"]

/-- The `newLines[newLines.length - 1] = partialLine` update: replace the
last element of the copied array (on an empty array the JavaScript
assignment to index -1 changes no element). -/
def setLast : List String → String → List String
  | [], _ => []
  | [_], x => [x]
  | a :: b :: rest, x => a :: setLast (b :: rest) x

/-- Result of one timer callback of a typing animation: either the script is
exhausted (`finished` — `typeCharacter` then runs `setIsInteractive(true)` and
stops, `typeExitSequence` schedules the BSOD timeout and stops), or the
callback reschedules itself (`next`) with updated closure variables
`lineIndex`, `charIndex` and updated terminal lines. -/
inductive StepOut where
  | finished (tl : List String)
  | next (li ci : Nat) (tl : List String)
deriving DecidableEq

/-- One invocation of `typeCharacter` (initial typing animation, lines
434-501): `li`/`ci` are the closure variables `lineIndex`/`charIndex`, `tl`
the current `terminalLines`.  At `ci = 0` a fresh empty line is pushed; while
`ci < L.length` the last line is overwritten with `L.slice(0, ci + 1)`. -/
def initTypeStep (lines : List String) (li ci : Nat) (tl : List String) : StepOut :=
  if lines.length ≤ li then .finished tl
  else
    let L := lines.getD li ""
    let tl1 := if ci = 0 then tl ++ [""] else tl
    if ci < jsLen L then .next li (ci + 1) (setLast tl1 (jsSlice L (ci + 1)))
    else .next (li + 1) 0 tl1

/-- One invocation of `typeExitSequence` (exit typing animation, lines
275-340).  It differs from `typeCharacter` on empty script lines: the
`charIndex === 0` push requires a non-empty line, and an empty line appends
one spacing line and advances. -/
def exitTypeStep (seq : List String) (li ci : Nat) (tl : List String) : StepOut :=
  if seq.length ≤ li then .finished tl
  else
    let L := seq.getD li ""
    let tl1 := if ci = 0 ∧ L ≠ "" then tl ++ [""] else tl
    if L = "" then .next (li + 1) 0 (tl1 ++ [""])
    else if ci < jsLen L then .next li (ci + 1) (setLast tl1 (jsSlice L (ci + 1)))
    else .next (li + 1) 0 tl1

/-- Running `typeCharacter`'s `setTimeout` chain to completion from closure
state `(li, ci)` and terminal lines `tl`: the same branch structure as
`initTypeStep`, iterated until the script is exhausted. -/
def runTyping (lines : List String) (li ci : Nat) (tl : List String) : List String :=
  if lines.length ≤ li then tl
  else if ci < jsLen (lines.getD li "") then
    runTyping lines li (ci + 1)
      (setLast (if ci = 0 then tl ++ [""] else tl) (jsSlice (lines.getD li "") (ci + 1)))
  else runTyping lines (li + 1) 0 (if ci = 0 then tl ++ [""] else tl)
termination_by (lines.length - li, jsLen (lines.getD li "") + 1 - ci)
decreasing_by
  · apply Prod.Lex.right
    simp only [jsLen, List.getD] at *
    omega
  · apply Prod.Lex.left
    omega

/-- The transient UI state of the `HeroTerminal` component (lines 91-119),
restricted to the fields the verified handlers touch. -/
structure TermState where
  terminalLines : List String
  isInteractive : Bool
  userInput : String
  commandHistory : List String
  historyIndex : Int
  isExitSequenceActive : Bool
  showBSOD : Bool
  countdown : Int
  showRestartButton : Bool
deriving DecidableEq

/-- The synchronous state updates of `executeExit` (lines 221-231): activate
the exit sequence, disable interaction, clear the terminal.  (Its timer
bookkeeping — `clearExitTimeouts()` and scheduling `initialTimeout` — is
modelled on `TimerState` below; `onExitTriggered` is an external callback.) -/
def executeExitState (s : TermState) : TermState :=
  { s with isExitSequenceActive := true, isInteractive := false, terminalLines := [] }

/-- The `bsodTimeout` callback at the end of the exit sequence (lines
278-281): show the BSOD and reset the countdown to 7. -/
def bsodTimeoutFire (s : TermState) : TermState :=
  { s with showBSOD := true, countdown := 7 }

/-- The key events `handleInputSubmit` distinguishes. -/
inductive Key where
  | enter
  | arrowUp
  | arrowDown
  | other
deriving DecidableEq

/-- `handleInputSubmit` (lines 357-405) as a state transformer, parametrized
by the two `Date`-derived strings of the `time` command.  Exit sequences
block all input; Enter on a non-blank input runs the command (including the
`setTerminalLines([])` of `processCommand`, the `executeExit()` side effect
of the flip commands, history append, clear-screen handling and echo);
ArrowUp/ArrowDown navigate the command history. -/
def handleInputSubmit (t z : String) (s : TermState) (k : Key) : TermState :=
  if s.isExitSequenceActive then s
  else
    match k with
    | .enter =>
      if jsTrim s.userInput = "" then s
      else
        let command := jsTrim s.userInput
        let response := processCommand t z command
        let s1 := { s with terminalLines := ([] : List String) }
        let s2 := if triggersExit command then executeExitState s1 else s1
        let s3 := { s2 with commandHistory := s2.commandHistory ++ [command],
                            historyIndex := -1 }
        if response.headD "" = "CLEAR_SCREEN" then
          { s3 with terminalLines := [], userInput := "" }
        else
          { s3 with terminalLines := s3.terminalLines ++ ("root@anatole:~$ " ++ command) :: (response ++ [""]), userInput := "" }
    | .arrowUp =>
      if 0 < s.commandHistory.length then
        let newIndex : Int :=
          if s.historyIndex = -1 then (s.commandHistory.length : Int) - 1
          else max 0 (s.historyIndex - 1)
        { s with historyIndex := newIndex,
                 userInput := s.commandHistory.getD newIndex.toNat "" }
      else s
    | .arrowDown =>
      if 0 ≤ s.historyIndex then
        let newIndex : Int := s.historyIndex + 1
        if (s.commandHistory.length : Int) ≤ newIndex then
          { s with historyIndex := -1, userInput := "" }
        else
          { s with historyIndex := newIndex,
                   userInput := s.commandHistory.getD newIndex.toNat "" }
      else s
    | .other => s

/-- The two events that drive the BSOD screen: `crash` is the `bsodTimeout`
firing (`setShowBSOD(true); setCountdown(7)`), `tick` is one evaluation of
the countdown effect (lines 572-581) together with the firing of the timer
it schedules: while visible and positive the countdown drops by one, at zero
the restart button is revealed, otherwise nothing happens. -/
inductive BsodEvent where
  | crash
  | tick
deriving DecidableEq

/-- One BSOD event applied to the component state. -/
def bsodStep (s : TermState) : BsodEvent → TermState
  | .crash => bsodTimeoutFire s
  | .tick =>
    if s.showBSOD = true ∧ 0 < s.countdown then { s with countdown := s.countdown - 1 }
    else if s.showBSOD = true ∧ s.countdown = 0 then { s with showRestartButton := true }
    else s

/-- The `fetchIPInfo(1).then` callback (lines 507-516): every terminal line
containing the substring `"network_trace:"` is rebuilt around the fetched
string `ip`; every other line is mapped to itself. -/
def applyIpInfo (ip : String) (lines : List String) : List String :=
  lines.map fun line => if jsIncludes line "network_trace:" then networkTraceLine ip else line

/-! ## Timer bookkeeping (mount effect, `exitTimeoutsRef`, unmount cleanup) -/

/-- Timer bookkeeping of the component: `nextId` numbers the
`setTimeout`/`setInterval` calls in creation order, `pending` holds the
scheduled, not-yet-fired, not-yet-cleared callbacks, `intervalIds` the three
intervals of the mount effect, and `exitTimeoutIds` is
`exitTimeoutsRef.current` (line 126). -/
structure TimerState where
  nextId : Nat
  pending : List Nat
  intervalIds : List Nat
  exitTimeoutIds : List Nat
deriving DecidableEq

/-- Schedule a timeout whose id is recorded nowhere: the `setTimeout` calls
by which `typeCharacter` reschedules itself (lines 488 and 499), by which
`typeExitSequence` reschedules itself (lines 298, 325 and 338), and the
input-refocus timeout (line 380). -/
def schedUntracked (s : TimerState) : TimerState :=
  { s with nextId := s.nextId + 1, pending := s.pending ++ [s.nextId] }

/-- Schedule one of the mount effect's intervals (`typeTimer`, `cursorTimer`,
`inputCursorTimer`, lines 523-539). -/
def schedInterval (s : TimerState) : TimerState :=
  { s with nextId := s.nextId + 1, pending := s.pending ++ [s.nextId],
           intervalIds := s.intervalIds ++ [s.nextId] }

/-- Schedule a timeout that is pushed onto `exitTimeoutsRef`: the
`initialTimeout` of `executeExit` (line 344) and the `bsodTimeout`
(line 282). -/
def schedExitTracked (s : TimerState) : TimerState :=
  { s with nextId := s.nextId + 1, pending := s.pending ++ [s.nextId],
           exitTimeoutIds := s.exitTimeoutIds ++ [s.nextId] }

/-- A pending timeout fires: its callback runs and it is no longer pending. -/
def fireTimer (s : TimerState) (id : Nat) : TimerState :=
  { s with pending := s.pending.erase id }

/-- The timers alive right after the mount effect ran: `detectUserMetadata`
calls `typeCharacter()` synchronously, whose first self-`setTimeout` (id 0)
is recorded nowhere; then the three intervals (ids 1, 2, 3) are created. -/
def mountTimers : TimerState :=
  schedInterval (schedInterval (schedInterval (schedUntracked ⟨0, [], [], []⟩)))

/-- The unmount cleanup (lines 542-547): `clearInterval` on the three
intervals and `clearExitTimeouts()` on the ids recorded in
`exitTimeoutsRef`; no other pending timer is cleared. -/
def unmountCleanup (s : TimerState) : TimerState :=
  { s with pending :=
      s.pending.filter fun i => decide (i ∉ s.intervalIds ∧ i ∉ s.exitTimeoutIds) }

/-- C4 counterexample: the claim "after the unmount cleanup runs, no callback
scheduled by the component can still fire" is false at a concrete execution:
unmounting right after mount leaves the typing animation's self-scheduled
`setTimeout` (id 0) pending, because `typeCharacter`'s timeout ids are
recorded neither as intervals nor in `exitTimeoutsRef`. -/
theorem unmount_cleanup_misses_typing_timeout :
    ¬ (unmountCleanup mountTimers).pending = [] := by decide

/-- C4 amended: the unmount cleanup cancels exactly the pending timers that
are among the three intervals or recorded in `exitTimeoutsRef`.  Concretely,
unmounting right after mount clears the three intervals but leaves the
typing chain's timeout (id 0) pending, while a timeout that `executeExit`
records in `exitTimeoutsRef` (id 4) is cleared. -/
theorem unmount_cleanup_clears_exactly_tracked (s : TimerState) (i : Nat) :
    (i ∈ (unmountCleanup s).pending ↔
      i ∈ s.pending ∧ i ∉ s.intervalIds ∧ i ∉ s.exitTimeoutIds) ∧
    (unmountCleanup mountTimers).pending = [0] ∧
    (unmountCleanup (schedExitTracked mountTimers)).pending = [0] := by
  refine ⟨?_, by decide, by decide⟩
  simp [unmountCleanup, List.mem_filter]

/-! ## Typing-animation lemmas and C3 -/

theorem string_eq_empty_of_data {s : String} (h : s.data = []) : s = "" := by
  cases s with
  | mk d => rw [show d = [] from h]

theorem jsSlice_full (s : String) : jsSlice s (jsLen s) = s := by
  show String.mk (s.data.take s.data.length) = s
  rw [List.take_length]

theorem jsSlice_append_jsRest (s : String) (n : Nat) : jsSlice s n ++ jsRest s n = s := by
  show String.mk (s.data.take n ++ s.data.drop n) = s
  rw [List.take_append_drop]

theorem jsLen_jsSlice (s : String) (n : Nat) (h : n ≤ jsLen s) :
    jsLen (jsSlice s n) = n := by
  simp only [jsLen, jsSlice, List.length_take]
  simp only [jsLen] at h
  omega

theorem setLast_concat (tl : List String) (x y : String) :
    setLast (tl ++ [x]) y = tl ++ [y] := by
  induction tl with
  | nil => rfl
  | cons a tl ih =>
    cases tl with
    | nil => rfl
    | cons b tl2 =>
      show a :: setLast ((b :: tl2) ++ [x]) y = a :: ((b :: tl2) ++ [y])
      rw [ih]

theorem getLastD_setLast (l : List String) (x : String) (h : l ≠ []) :
    ∀ d, (setLast l x).getLastD d = x := by
  induction l with
  | nil => exact absurd rfl h
  | cons a l ih =>
    intro d
    cases l with
    | nil => rfl
    | cons b l2 =>
      show (a :: setLast (b :: l2) x).getLastD d = x
      rw [List.getLastD_cons]
      exact ih (by simp) a

theorem runTyping_line (lines : List String) (li : Nat) (hli : li < lines.length) :
    ∀ n ci tl, 1 ≤ ci → ci ≤ jsLen (lines.getD li "") →
      n = jsLen (lines.getD li "") - ci →
      runTyping lines li ci (tl ++ [jsSlice (lines.getD li "") ci]) =
        runTyping lines (li + 1) 0 (tl ++ [lines.getD li ""]) := by
  intro n
  induction n with
  | zero =>
    intro ci tl h1 h2 h3
    have hc : ci = jsLen (lines.getD li "") := by omega
    rw [runTyping, if_neg (by omega : ¬ lines.length ≤ li), if_neg (by omega), if_neg (by omega : ¬ ci = 0)]
    rw [hc, jsSlice_full]
  | succ n ih =>
    intro ci tl h1 h2 h3
    have hlt : ci < jsLen (lines.getD li "") := by omega
    rw [runTyping, if_neg (by omega : ¬ lines.length ≤ li), if_pos hlt,
      if_neg (by omega : ¬ ci = 0), setLast_concat]
    exact ih (ci + 1) tl (by omega) (by omega) (by omega)

theorem runTyping_line_start (lines : List String) (li : Nat) (hli : li < lines.length)
    (tl : List String) :
    runTyping lines li 0 tl = runTyping lines (li + 1) 0 (tl ++ [lines.getD li ""]) := by
  rw [runTyping, if_neg (by omega : ¬ lines.length ≤ li)]
  by_cases h0 : 0 < jsLen (lines.getD li "")
  · rw [if_pos h0, if_pos rfl, setLast_concat]
    exact runTyping_line lines li hli (jsLen (lines.getD li "") - 1) 1 tl le_rfl h0 (by omega)
  · rw [if_neg h0, if_pos rfl]
    have he : lines.getD li "" = "" := by
      apply string_eq_empty_of_data
      have : (lines.getD li "").data.length = 0 := by
        simp only [jsLen] at h0; omega
      exact List.length_eq_zero.mp this
    rw [he]

theorem runTyping_drop (lines : List String) :
    ∀ k li tl, lines.length - li = k →
      runTyping lines li 0 tl = tl ++ lines.drop li := by
  intro k
  induction k with
  | zero =>
    intro li tl hk
    have h : lines.length ≤ li := by omega
    rw [runTyping, if_pos h, List.drop_eq_nil_of_le h, List.append_nil]
  | succ k ih =>
    intro li tl hk
    have hli : li < lines.length := by omega
    rw [runTyping_line_start lines li hli tl, ih (li + 1) _ (by omega), List.append_assoc]
    congr 1
    rw [List.getD_eq_getElem lines "" hli]
    exact (List.drop_eq_getElem_cons hli).symm

/-- C3: when the initial typing animation completes (the step index has
reached the end of the scripted lines), the accumulated `terminalLines` list
equals the scripted lines array exactly — same number of lines, in the same
order, each line character-for-character its script entry, with the
`network_trace` line built from the current `ipInfoRef` value `ip`. -/
theorem initial_typing_completes_to_script (m : Metadata) (ip : String) :
    runTyping (initialLines m ip) 0 0 [] = initialLines m ip ∧
      (runTyping (initialLines m ip) 0 0 []).length = (initialLines m ip).length := by
  have h := runTyping_drop (initialLines m ip) (initialLines m ip).length 0 [] (by omega)
  simp only [List.drop_zero, List.nil_append] at h
  exact ⟨h, by rw [h]⟩

/-! ## C7: typed text is a script slice -/

/-- C7: during both typing animations, the timer step that types character
`ci` of a non-empty scripted line `L` (with `ci < L.length`) reschedules
itself with `charIndex` advanced by one and rewrites the last element of
`terminalLines` to exactly `L.slice(0, ci + 1)` — a leading piece of the
fixed script line, of length `ci + 1`, so one character is added per tick.
(`ci = 0 ∨ tl ≠ []` records that a fresh line was pushed at `ci = 0`.) -/
theorem typing_step_writes_script_slice
    (lines : List String) (li ci : Nat) (tl : List String)
    (hli : li < lines.length) (hci : ci < jsLen (lines.getD li ""))
    (htl : ci = 0 ∨ tl ≠ [])
    (seq : List String) (lj cj : Nat) (ul : List String)
    (hlj : lj < seq.length) (hcj : cj < jsLen (seq.getD lj ""))
    (hul : cj = 0 ∨ ul ≠ []) :
    (∃ tl2, initTypeStep lines li ci tl = .next li (ci + 1) tl2 ∧
        tl2.getLastD "" = jsSlice (lines.getD li "") (ci + 1)) ∧
    (∃ ul2, exitTypeStep seq lj cj ul = .next lj (cj + 1) ul2 ∧
        ul2.getLastD "" = jsSlice (seq.getD lj "") (cj + 1)) ∧
    jsSlice (lines.getD li "") (ci + 1) ++ jsRest (lines.getD li "") (ci + 1)
      = lines.getD li "" ∧
    jsLen (jsSlice (lines.getD li "") (ci + 1)) = ci + 1 ∧
    jsSlice (seq.getD lj "") (cj + 1) ++ jsRest (seq.getD lj "") (cj + 1) = seq.getD lj "" ∧
    jsLen (jsSlice (seq.getD lj "") (cj + 1)) = cj + 1 := by
  have hLne : seq.getD lj "" ≠ "" := by
    intro he
    rw [he] at hcj
    simp [jsLen] at hcj
  refine ⟨?_, ?_, jsSlice_append_jsRest _ _, jsLen_jsSlice _ _ (by omega),
    jsSlice_append_jsRest _ _, jsLen_jsSlice _ _ (by omega)⟩
  · refine ⟨setLast (if ci = 0 then tl ++ [""] else tl)
      (jsSlice (lines.getD li "") (ci + 1)), ?_, ?_⟩
    · simp only [initTypeStep]
      rw [if_neg (by omega : ¬ lines.length ≤ li), if_pos hci]
    · apply getLastD_setLast
      rcases htl with h | h
      · simp [h]
      · by_cases h0 : ci = 0 <;> simp [h0, h]
  · refine ⟨setLast (if cj = 0 ∧ ¬ seq.getD lj "" = "" then ul ++ [""] else ul)
      (jsSlice (seq.getD lj "") (cj + 1)), ?_, ?_⟩
    · simp only [exitTypeStep]
      rw [if_neg (by omega : ¬ seq.length ≤ lj), if_neg hLne, if_pos hcj]
    · apply getLastD_setLast
      have hLne2 : ¬ seq[lj]?.getD "" = "" := by
        simpa only [List.getD, List.get?_eq_getElem?] using hLne
      rcases hul with h | h
      · simp [h, hLne2]
      · by_cases h0 : cj = 0 <;> simp [h0, h, hLne2]

/-- Witness for C7 at concrete inputs: mid-line for `typeCharacter`
(`ci = 1`) and line start for `typeExitSequence` (`cj = 0`). -/
theorem typing_step_writes_script_slice_witness :
    (∃ tl2, initTypeStep ["ab"] 0 1 ["a"] = .next 0 2 tl2 ∧
        tl2.getLastD "" = jsSlice "ab" 2) ∧
      (∃ ul2, exitTypeStep ["cd"] 0 0 [] = .next 0 1 ul2 ∧
        ul2.getLastD "" = jsSlice "cd" 1) := by
  have h := typing_step_writes_script_slice ["ab"] 0 1 ["a"] (by decide) (by decide)
    (Or.inr (by decide)) ["cd"] 0 0 [] (by decide) (by decide) (Or.inl rfl)
  exact ⟨h.1, h.2.1⟩

/-! ## C2: one-way stage order -/

/-- A concrete component state used by witnesses: mount-time fields with the
exit sequence running. -/
def demoExitState : TermState :=
  { terminalLines := [], isInteractive := false, userInput := "help",
    commandHistory := [], historyIndex := -1, isExitSequenceActive := true,
    showBSOD := false, countdown := 7, showRestartButton := false }

/-- C2: the stage order typing → interactive → exit-sequence → crash-screen
is one-way: `typeCharacter` reaches its `setIsInteractive(true)` branch
(`finished`) exactly when `lineIndex` has passed the end of the scripted
lines; `executeExit` sets `isInteractive` false and `isExitSequenceActive`
true; while `isExitSequenceActive` holds, `handleInputSubmit` processes no
key event at all (the state is returned unchanged, so no command runs and no
history entry is added); `typeExitSequence` reaches the branch that
schedules the BSOD timeout (`finished`) exactly when its `lineIndex` has
passed the end of the exit script; and only that timeout's firing sets
`showBSOD`, together with resetting the countdown to 7. -/
theorem stage_order_one_way
    (lines seq : List String) (li ci lj cj : Nat) (tl ul : List String)
    (s : TermState) (t z : String) (k : Key) :
    ((∃ tlF, initTypeStep lines li ci tl = .finished tlF) ↔ lines.length ≤ li) ∧
    ((executeExitState s).isInteractive = false ∧
      (executeExitState s).isExitSequenceActive = true) ∧
    (s.isExitSequenceActive = true → handleInputSubmit t z s k = s) ∧
    ((∃ ulF, exitTypeStep seq lj cj ul = .finished ulF) ↔ seq.length ≤ lj) ∧
    ((bsodTimeoutFire s).showBSOD = true ∧ (bsodTimeoutFire s).countdown = 7) := by
  refine ⟨⟨?_, ?_⟩, ⟨rfl, rfl⟩, ?_, ⟨?_, ?_⟩, rfl, rfl⟩
  · rintro ⟨tlF, h⟩
    by_contra hlt
    simp only [initTypeStep] at h
    rw [if_neg hlt] at h
    by_cases h2 : ci < jsLen (lines.getD li "")
    · rw [if_pos h2] at h; exact StepOut.noConfusion h
    · rw [if_neg h2] at h; exact StepOut.noConfusion h
  · intro h
    exact ⟨tl, by simp only [initTypeStep]; rw [if_pos h]⟩
  · intro h
    simp [handleInputSubmit, h]
  · rintro ⟨ulF, h⟩
    by_contra hlt
    simp only [exitTypeStep] at h
    rw [if_neg hlt] at h
    by_cases hL : seq.getD lj "" = ""
    · rw [if_pos hL] at h; exact StepOut.noConfusion h
    · rw [if_neg hL] at h
      by_cases h2 : cj < jsLen (seq.getD lj "")
      · rw [if_pos h2] at h; exact StepOut.noConfusion h
      · rw [if_neg h2] at h; exact StepOut.noConfusion h
  · intro h
    exact ⟨ul, by simp only [exitTypeStep]; rw [if_pos h]⟩

/-- Witness for C2: with the exit sequence active, a key event leaves the
state untouched; the BSOD timeout shows the crash screen. -/
theorem stage_order_one_way_witness :
    handleInputSubmit "t" "z" demoExitState Key.enter = demoExitState ∧
      (bsodTimeoutFire demoExitState).showBSOD = true :=
  ⟨(stage_order_one_way [] [] 0 0 0 0 [] [] demoExitState "t" "z" Key.enter).2.2.1 rfl,
   (stage_order_one_way [] [] 0 0 0 0 [] [] demoExitState "t" "z" Key.enter).2.2.2.2.1⟩

/-! ## C5: frame property of the IP-info update -/

/-- C5: applying the resolved IP fetch to the terminal replaces exactly the
lines containing the substring `"network_trace:"` (each rebuilt around the
fetched string) and leaves every other line unchanged; no line is added or
removed (the update is a `map`, so the length is preserved). -/
theorem applyIpInfo_frame (ip : String) (lines : List String) :
    (applyIpInfo ip lines).length = lines.length ∧
      ∀ i : Nat,
        if jsIncludes (lines.getD i "") "network_trace:" = true
        then (applyIpInfo ip lines).getD i "" = networkTraceLine ip
        else (applyIpInfo ip lines).getD i "" = lines.getD i "" := by
  constructor
  · simp [applyIpInfo]
  · intro i
    induction lines generalizing i with
    | nil =>
      have hf : jsIncludes "" "network_trace:" = false := rfl
      simp [applyIpInfo, hf]
    | cons a l ih =>
      cases i with
      | zero =>
        by_cases h : jsIncludes a "network_trace:" = true
        · simp [applyIpInfo, h]
        · simp only [Bool.not_eq_true] at h
          simp [applyIpInfo, h]
      | succ j =>
        have hj := ih j
        simpa [applyIpInfo] using hj

/-! ## C6: BSOD countdown -/

/-- C6: the countdown starts at 7 when the crash screen is shown
(`bsodTimeout` sets `showBSOD` and resets the countdown to 7); while the
BSOD is visible and the countdown positive, one effect evaluation plus its
timer decreases it by exactly 1; starting from a non-negative countdown it
never becomes negative along any event sequence; and the countdown effect
reveals the restart button exactly when the BSOD is shown and the countdown
has reached 0 (or the button was already revealed). -/
theorem bsod_countdown_behavior (s : TermState) (evs : List BsodEvent) :
    ((bsodStep s .crash).countdown = 7 ∧ (bsodStep s .crash).showBSOD = true) ∧
    (s.showBSOD = true → 0 < s.countdown →
      (bsodStep s .tick).countdown = s.countdown - 1) ∧
    (0 ≤ s.countdown → 0 ≤ (evs.foldl bsodStep s).countdown) ∧
    ((bsodStep s .tick).showRestartButton = true ↔
      s.showRestartButton = true ∨ (s.showBSOD = true ∧ s.countdown = 0)) := by
  refine ⟨⟨rfl, rfl⟩, ?_, ?_, ?_⟩
  · intro h1 h2
    simp [bsodStep, h1, h2]
  · intro h0
    induction evs generalizing s with
    | nil => exact h0
    | cons e evs ih =>
      apply ih
      cases e with
      | crash => simp [bsodStep, bsodTimeoutFire]
      | tick =>
        by_cases h1 : s.showBSOD = true ∧ 0 < s.countdown
        · simp only [bsodStep, if_pos h1]
          omega
        · by_cases h2 : s.showBSOD = true ∧ s.countdown = 0
          · simp only [bsodStep, if_neg h1, if_pos h2]
            exact h0
          · simp only [bsodStep, if_neg h1, if_neg h2]
            exact h0
  · by_cases h1 : s.showBSOD = true ∧ 0 < s.countdown
    · simp only [bsodStep, if_pos h1]
      constructor
      · exact fun h => Or.inl h
      · rintro (h | ⟨_, hc⟩)
        · exact h
        · omega
    · by_cases h2 : s.showBSOD = true ∧ s.countdown = 0
      · simp only [bsodStep, if_neg h1, if_pos h2]
        simp [h2]
      · simp only [bsodStep, if_neg h1, if_neg h2]
        constructor
        · exact fun h => Or.inl h
        · rintro (h | hc)
          · exact h
          · exact absurd hc h2

/-- A concrete visible-BSOD state used by the C6 witness. -/
def demoBsodState : TermState :=
  { demoExitState with showBSOD := true, countdown := 3 }

/-- Witness for C6 at a concrete state: one tick decrements 3 to 2, and a
crash followed by a tick keeps the countdown non-negative. -/
theorem bsod_countdown_behavior_witness :
    (bsodStep demoBsodState .tick).countdown = demoBsodState.countdown - 1 ∧
      0 ≤ (([BsodEvent.crash, BsodEvent.tick]).foldl bsodStep demoBsodState).countdown :=
  ⟨(bsod_countdown_behavior demoBsodState []).2.1 rfl (by decide),
   (bsod_countdown_behavior demoBsodState [BsodEvent.crash, BsodEvent.tick]).2.2.1 (by decide)⟩

/-! ## C10: history navigation bounds -/

theorem arrow_step_props (t z : String) (s : TermState) (k : Key)
    (hk : k = Key.arrowUp ∨ k = Key.arrowDown)
    (h : -1 ≤ s.historyIndex ∧ s.historyIndex < (s.commandHistory.length : Int)) :
    (-1 ≤ (handleInputSubmit t z s k).historyIndex ∧
      (handleInputSubmit t z s k).historyIndex
        < ((handleInputSubmit t z s k).commandHistory.length : Int)) ∧
    (handleInputSubmit t z s k).commandHistory = s.commandHistory := by
  by_cases hex : s.isExitSequenceActive = true
  · simp only [handleInputSubmit, if_pos hex]
    exact ⟨h, by trivial⟩
  · rw [Bool.not_eq_true] at hex
    rcases hk with rfl | rfl
    · simp only [handleInputSubmit, hex, Bool.false_eq_true, if_false]
      by_cases hlen : 0 < s.commandHistory.length
      · rw [if_pos hlen]
        by_cases hmi : s.historyIndex = -1
        · simp only [if_pos hmi]
          exact ⟨⟨by omega, by omega⟩, by trivial⟩
        · simp only [if_neg hmi]
          exact ⟨⟨by omega, by omega⟩, by trivial⟩
      · rw [if_neg hlen]
        exact ⟨h, by trivial⟩
    · simp only [handleInputSubmit, hex, Bool.false_eq_true, if_false]
      by_cases h0 : 0 ≤ s.historyIndex
      · rw [if_pos h0]
        by_cases hpast : (s.commandHistory.length : Int) ≤ s.historyIndex + 1
        · simp only [if_pos hpast]
          exact ⟨⟨by omega, by omega⟩, by trivial⟩
        · simp only [if_neg hpast]
          exact ⟨⟨by omega, by omega⟩, by trivial⟩
      · rw [if_neg h0]
        exact ⟨h, by trivial⟩

/-- C10: starting from a state whose `historyIndex` lies in
`[-1, commandHistory.length - 1]`, any sequence of ArrowUp/ArrowDown key
events processed by `handleInputSubmit` keeps it in that range; ArrowUp does
nothing when the history is empty; ArrowUp on a non-empty history from a
non-negative index moves it to `Math.max(0, historyIndex - 1)` — a
non-negative value, so the index clamps at 0 (from index 0 it stays 0); and
ArrowDown past the newest entry resets `historyIndex` to -1 and clears the
input. -/
theorem history_index_bounds (t z : String) (s : TermState) (ks : List Key)
    (hks : ∀ k ∈ ks, k = Key.arrowUp ∨ k = Key.arrowDown)
    (h : -1 ≤ s.historyIndex ∧ s.historyIndex < (s.commandHistory.length : Int)) :
    (-1 ≤ (ks.foldl (handleInputSubmit t z) s).historyIndex ∧
      (ks.foldl (handleInputSubmit t z) s).historyIndex
        < ((ks.foldl (handleInputSubmit t z) s).commandHistory.length : Int)) ∧
    (s.commandHistory = [] → handleInputSubmit t z s Key.arrowUp = s) ∧
    (s.isExitSequenceActive = false → 0 < s.commandHistory.length →
      0 ≤ s.historyIndex →
      (handleInputSubmit t z s Key.arrowUp).historyIndex = max 0 (s.historyIndex - 1) ∧
        0 ≤ (handleInputSubmit t z s Key.arrowUp).historyIndex) ∧
    (s.isExitSequenceActive = false → 0 ≤ s.historyIndex →
      (s.commandHistory.length : Int) ≤ s.historyIndex + 1 →
      (handleInputSubmit t z s Key.arrowDown).historyIndex = -1 ∧
        (handleInputSubmit t z s Key.arrowDown).userInput = "") := by
  refine ⟨?_, ?_, ?_, ?_⟩
  · induction ks generalizing s with
    | nil => exact h
    | cons k ks ih =>
      exact ih (handleInputSubmit t z s k)
        (fun k2 hk2 => hks k2 (List.mem_cons_of_mem k hk2))
        (arrow_step_props t z s k (hks k (List.mem_cons_self k ks)) h).1
  · intro hemp
    by_cases hex : s.isExitSequenceActive = true
    · simp only [handleInputSubmit, if_pos hex]
    · rw [Bool.not_eq_true] at hex
      simp [handleInputSubmit, hex, hemp]
  · intro hex hlen h0
    have hne : ¬ s.historyIndex = -1 := by omega
    simp only [handleInputSubmit, hex, Bool.false_eq_true, if_false, if_pos hlen, if_neg hne]
    exact ⟨by trivial, by omega⟩
  · intro hex h0 hpast
    simp only [handleInputSubmit, hex, Bool.false_eq_true, if_false, if_pos h0, if_pos hpast]
    exact ⟨by trivial, by trivial⟩

/-- A concrete interactive state with one history entry, for the C10
witness. -/
def demoHistState : TermState :=
  { terminalLines := [], isInteractive := true, userInput := "",
    commandHistory := ["help"], historyIndex := 0, isExitSequenceActive := false,
    showBSOD := false, countdown := 7, showRestartButton := false }

/-- Witness for C10 at a concrete state: an ArrowUp/ArrowDown pair keeps the
index in range, ArrowUp at index 0 clamps and keeps it at 0, and ArrowDown
at the newest entry resets it to -1. -/
theorem history_index_bounds_witness :
    (-1 ≤ (([Key.arrowUp, Key.arrowDown]).foldl (handleInputSubmit "t" "z") demoHistState).historyIndex ∧
      (([Key.arrowUp, Key.arrowDown]).foldl (handleInputSubmit "t" "z") demoHistState).historyIndex
        < ((([Key.arrowUp, Key.arrowDown]).foldl (handleInputSubmit "t" "z") demoHistState).commandHistory.length : Int)) ∧
    (handleInputSubmit "t" "z" demoHistState Key.arrowUp).historyIndex = 0 ∧
    (handleInputSubmit "t" "z" demoHistState Key.arrowDown).historyIndex = -1 :=
  ⟨(history_index_bounds "t" "z" demoHistState [Key.arrowUp, Key.arrowDown]
      (by decide) ⟨by decide, by decide⟩).1,
   (((history_index_bounds "t" "z" demoHistState [] (by decide)
      ⟨by decide, by decide⟩).2.2.1 rfl (by decide) (by decide)).1).trans (by decide),
   ((history_index_bounds "t" "z" demoHistState [] (by decide)
      ⟨by decide, by decide⟩).2.2.2 rfl (by decide) (by decide)).1⟩
